import Mathlib

/-!
Shallow embedding of the SoundBoard core (trigger matching, cooldowns,
round-robin clip rotation, repository CRUD with cascading cleanup, and
profile export/import), translated from:

  - `client/src/lib/browser-storage.ts`  (class `BrowserStorage`)
  - `server/storage.ts`                  (class `MemStorage`)
  - `client/src/hooks/use-voice-recognition.tsx` (`checkForTriggerWords`)

Conventions of the embedding:
  - JS numbers that are ids, lengths, indices, sizes and millisecond times
    become `Nat` (they are non-negative integers in every reachable state);
    audio durations are carried as `Nat` as well, since no verified claim
    computes with them.
  - `Map<number, T>` becomes an association list `List (Nat × T)` with
    `Map.set` insertion-order semantics; IndexedDB object stores become
    `List` of records, with `autoIncrement` key generators modelled as
    explicit counters (IndexedDB `clear()` does not reset the generator,
    so the counters survive `clearAllData`).
  - `Date.now()` and the audio-element duration probe are environment
    inputs; they are passed as explicit parameters.
  - `Promise` code in the source is sequential `await` chains, so it is
    embedded as plain state-passing functions.
  - JS `x || d` on numbers is `if x = 0 then d else x`, on booleans it is
    the identity; optional/missing JSON keys become `Option`.
-/

/-! ## Data model (shared/schema, plural `soundClipIds` shape) -/

/-- A stored sound clip record (`sound_clips` row / IndexedDB record). -/
structure SoundClip where
  id : Nat
  name : String
  filename : String
  format : String
  duration : Nat
  size : Nat
  url : String
  deriving Repr, DecidableEq

/-- A trigger-word record in the plural/rotating shape used by
`BrowserStorage` and the in-memory server storage. -/
structure TriggerWord where
  id : Nat
  phrase : String
  caseSensitive : Bool
  enabled : Bool
  soundClipIds : List Nat
  currentIndex : Nat
  deriving Repr, DecidableEq

/-- The singleton settings row (id is fixed to 1 by the code). -/
structure Settings where
  id : Nat
  defaultResponseEnabled : Bool
  defaultResponseSoundClipIds : List Nat
  defaultResponseDelay : Nat
  defaultResponseIndex : Nat
  deriving Repr, DecidableEq

/-! ## String helpers mirroring the JS primitives -/

/-- JS `String.prototype.toLowerCase`, modelled on the ASCII range
(`Char.toLower` lower-cases exactly `A`-`Z`). -/
def lowerStr (s : String) : String := String.mk (s.toList.map Char.toLower)

/-- JS `String.prototype.includes`: substring containment. -/
def strIncludes (hay needle : String) : Bool :=
  (List.range (hay.toList.length + 1)).any
    (fun i => needle.toList.isPrefixOf (hay.toList.drop i))

/-- JS `String.prototype.trim`: strip leading and trailing whitespace
(modelled with `Char.isWhitespace` over the characters). -/
def strTrim (s : String) : String :=
  String.mk
    (((s.toList.dropWhile Char.isWhitespace).reverse.dropWhile Char.isWhitespace).reverse)

/-! ## Trigger Matching Engine (`use-voice-recognition.tsx`, `checkForTriggerWords`) -/

/-- The comparison phrase for a trigger:
`trigger.caseSensitive ? trigger.phrase : trigger.phrase.toLowerCase()`. -/
def comparePhrase (t : TriggerWord) : String :=
  if t.caseSensitive then t.phrase else lowerStr t.phrase

/-- The text a trigger is compared against:
`trigger.caseSensitive ? text : lowerText`. -/
def searchTextFor (t : TriggerWord) (text : String) : String :=
  if t.caseSensitive then text else lowerStr text

/-- Whether a trigger matches a finalized transcript
(the guard `trigger.enabled` plus `searchText.includes(phrase)`). -/
def triggerMatches (t : TriggerWord) (text : String) : Bool :=
  t.enabled && strIncludes (searchTextFor t text) (comparePhrase t)

/-- The cooldown key of a trigger: `` `${trigger.id}-${phrase}` `` where
`phrase` is the phrase actually used for the match. -/
def cooldownKey (t : TriggerWord) : String :=
  toString t.id ++ "-" ++ comparePhrase t

/-- An entry of the cooldown set.  The source stores a bare key in a `Set`
and removes it with a `setTimeout` after its lifetime elapses; the
embedding keeps the key together with its absolute expiry instant, so
that membership at time `now` is `now < expiry`. -/
structure CooldownEntry where
  key : String
  expiry : Nat
  deriving Repr, DecidableEq

/-- Whether `key` is in the active cooldown set at instant `now`
(in the source: `triggerCooldownRef.current.has(key)`, the `setTimeout`
deletion having fired for expired entries). -/
def hasCooldown (cooldowns : List CooldownEntry) (now : Nat) (key : String) : Bool :=
  cooldowns.any (fun e => e.key = key && decide (now < e.expiry))

/-- Result of processing one finalized transcript: the cooldown set after
processing, the ids of the triggers whose play pipeline was started
(the non-suppressed matches; only these reach the rotation cursor and the
audio sink), the `triggerMatched` flag, and whether the delayed
default-response fallback was scheduled. -/
structure CheckResult where
  cooldowns : List CooldownEntry
  fired : List Nat
  triggerMatched : Bool
  defaultScheduled : Bool
  deriving Repr, DecidableEq

/-- Body of the `triggerWords.forEach` loop in `checkForTriggerWords`:
skip disabled triggers; on a match set `triggerMatched`, then either
suppress (key active) or insert the key with a 2000 ms expiry and start
playback of the trigger's next clip. -/
def checkTrigger (now : Nat) (text : String) (acc : CheckResult) (trigger : TriggerWord) :
    CheckResult :=
  if !trigger.enabled then acc
  else
    let phrase := comparePhrase trigger
    let searchText := searchTextFor trigger text
    if strIncludes searchText phrase then
      let acc1 := { acc with triggerMatched := true }
      let key := cooldownKey trigger
      if hasCooldown acc1.cooldowns now key then acc1
      else
        { acc1 with
          cooldowns := acc1.cooldowns ++ [⟨key, now + 2000⟩],
          fired := acc1.fired ++ [trigger.id] }
    else acc

/-- Source `checkForTriggerWords(text)`: process every trigger in order, then, if
no trigger matched and the trimmed transcript is non-empty and the
default response is enabled with a non-empty clip list, schedule the
fallback gated by the singleton `"default-response"` cooldown key (whose
lifetime is `settings.defaultResponseDelay || 2000`). -/
def checkForTriggerWords (triggers : List TriggerWord) (settings : Settings)
    (now : Nat) (cooldowns : List CooldownEntry) (text : String) : CheckResult :=
  let r := triggers.foldl (checkTrigger now text)
    { cooldowns := cooldowns, fired := [], triggerMatched := false, defaultScheduled := false }
  if !r.triggerMatched && decide ((strTrim text).length > 0)
      && settings.defaultResponseEnabled
      && decide (settings.defaultResponseSoundClipIds.length > 0) then
    let key := "default-response"
    if !hasCooldown r.cooldowns now key then
      { r with
        cooldowns := r.cooldowns ++
          [⟨key, now + (if settings.defaultResponseDelay = 0 then 2000
                        else settings.defaultResponseDelay)⟩],
        defaultScheduled := true }
    else r
  else r

/-! ## In-memory server repository (`server/storage.ts`, class `MemStorage`) -/

/-- Insertion-order-preserving `Map.set`: replace the binding when the key
is present, append it otherwise. -/
def mapSet {α : Type} (l : List (Nat × α)) (k : Nat) (v : α) : List (Nat × α) :=
  if l.any (fun p => p.1 = k) then
    l.map (fun p => if p.1 = k then (k, v) else p)
  else l ++ [(k, v)]

/-- The mutable fields of `MemStorage` (the server-profile directory is
outside the verified core). -/
structure MemState where
  soundClips : List (Nat × SoundClip)
  triggerWords : List (Nat × TriggerWord)
  settings : Settings
  currentSoundClipId : Nat
  currentTriggerWordId : Nat
  deriving Repr, DecidableEq

namespace MemStorage

/-- Source `MemStorage.getTriggerWord`. -/
def getTriggerWord (s : MemState) (id : Nat) : Option TriggerWord :=
  (s.triggerWords.lookup id)

/-- Source `MemStorage.deleteSoundClip`: remove the clip, then for every trigger
drop the clip id from its `soundClipIds`; delete triggers left with no
clips, and clamp `currentIndex` with
`Math.min(currentIndex, updatedIds.length - 1)` on the ones that shrank. -/
def deleteSoundClip (s : MemState) (id : Nat) : MemState :=
  { s with
    soundClips := s.soundClips.filter (fun p => p.1 ≠ id),
    triggerWords := s.triggerWords.filterMap (fun p =>
      let triggerWord := p.2
      let updatedIds := triggerWord.soundClipIds.filter (fun clipId => clipId ≠ id)
      if updatedIds.length = 0 then none
      else if updatedIds.length ≠ triggerWord.soundClipIds.length then
        some (p.1, { triggerWord with
          soundClipIds := updatedIds,
          currentIndex := min triggerWord.currentIndex (updatedIds.length - 1) })
      else some p) }

/-- Source `MemStorage.getNextSoundClipForTrigger`: missing trigger or empty clip
list yields `null` with no mutation; otherwise return
`soundClipIds[currentIndex]` and advance
`currentIndex := (currentIndex + 1) % soundClipIds.length`. -/
def getNextSoundClipForTrigger (s : MemState) (triggerId : Nat) :
    Option Nat × MemState :=
  match s.triggerWords.lookup triggerId with
  | none => (none, s)
  | some triggerWord =>
    if triggerWord.soundClipIds.length = 0 then (none, s)
    else
      let currentSoundClipId := triggerWord.soundClipIds.get? triggerWord.currentIndex
      let nextIndex := (triggerWord.currentIndex + 1) % triggerWord.soundClipIds.length
      let updated := { triggerWord with currentIndex := nextIndex }
      (currentSoundClipId,
       { s with triggerWords := mapSet s.triggerWords triggerId updated })

/-- Source `MemStorage.getNextDefaultResponse`: `null` with no mutation when the
rotation is disabled or the default list is empty; otherwise return the
clip at `defaultResponseIndex` and advance it modulo the list length. -/
def getNextDefaultResponse (s : MemState) : Option Nat × MemState :=
  if !s.settings.defaultResponseEnabled
      || s.settings.defaultResponseSoundClipIds.length = 0 then
    (none, s)
  else
    let soundClipIds := s.settings.defaultResponseSoundClipIds
    let currentIndex := s.settings.defaultResponseIndex
    let soundClipId := soundClipIds.get? currentIndex
    let nextIndex := (currentIndex + 1) % soundClipIds.length
    (soundClipId,
     { s with settings := { s.settings with defaultResponseIndex := nextIndex } })

/-- Runs `n` successive calls of `getNextSoundClipForTrigger` on one trigger,
collecting the returned clip ids in order. -/
def runNext (s : MemState) (triggerId : Nat) : Nat → List (Option Nat) × MemState
  | 0 => ([], s)
  | n + 1 =>
    let step := getNextSoundClipForTrigger s triggerId
    let rest := runNext step.2 triggerId n
    (step.1 :: rest.1, rest.2)

end MemStorage

/-! ## Base64 (`btoa` / `atob`) over byte lists -/

/-- The base64 alphabet. -/
def base64Chars : List Char :=
  "ABCDEFGHIJKLMNOPQRSTUVWXYZabcdefghijklmnopqrstuvwxyz0123456789+/".toList

/-- Character for a 6-bit group. -/
def b64Char (n : Nat) : Char := base64Chars.getD n 'A'

/-- The 6-bit value of a base64 character. -/
def b64Val (c : Char) : Nat := (base64Chars.indexOf c)

/-- Encode a byte list into base64 characters (with `=` padding), as
`btoa(String.fromCharCode(...bytes))` does for bytes below 256. -/
def btoaAux : List Nat → List Char
  | [] => []
  | [b1] => [b64Char (b1 / 4), b64Char (b1 % 4 * 16), '=', '=']
  | [b1, b2] => [b64Char (b1 / 4), b64Char (b1 % 4 * 16 + b2 / 16),
                 b64Char (b2 % 16 * 4), '=']
  | b1 :: b2 :: b3 :: rest =>
    b64Char (b1 / 4) :: b64Char (b1 % 4 * 16 + b2 / 16) ::
    b64Char (b2 % 16 * 4 + b3 / 64) :: b64Char (b3 % 64) :: btoaAux rest

/-- JS `btoa` on a binary string holding the given bytes. -/
def btoa (bytes : List Nat) : String := String.mk (btoaAux bytes)

/-- Decode base64 characters back into bytes (as `atob` followed by
`charCodeAt` over the result). -/
def atobAux : List Char → List Nat
  | c1 :: c2 :: c3 :: c4 :: rest =>
    let n1 := b64Val c1
    let n2 := b64Val c2
    if c3 = '=' then [n1 * 4 + n2 / 16]
    else
      let n3 := b64Val c3
      if c4 = '=' then [n1 * 4 + n2 / 16, n2 % 16 * 16 + n3 / 4]
      else (n1 * 4 + n2 / 16) :: (n2 % 16 * 16 + n3 / 4) ::
           (n3 % 4 * 64 + b64Val c4) :: atobAux rest
  | _ => []

/-- JS `atob`, returning the decoded bytes. -/
def atob (s : String) : List Nat := atobAux s.toList

/-! ## Browser repository (`client/src/lib/browser-storage.ts`, class `BrowserStorage`) -/

/-- A JS `File`: name, MIME type, and contents (whose length is `size`). -/
structure JsFile where
  name : String
  type : String
  bytes : List Nat
  deriving Repr, DecidableEq

/-- JS `file.size` is the byte length of the contents. -/
def JsFile.size (f : JsFile) : Nat := f.bytes.length

/-- A record of the `audioFiles` object store (keyPath `filename`). -/
structure AudioFile where
  filename : String
  data : List Nat
  originalName : String
  deriving Repr, DecidableEq

/-- The four IndexedDB object stores plus the `autoIncrement` key
generators of `soundClips` and `triggerWords` (generators are not reset
by `clear()`). -/
structure BrowserState where
  soundClips : List SoundClip
  triggerWords : List TriggerWord
  settingsRow : Option Settings
  audioFiles : List AudioFile
  nextClipId : Nat
  nextTriggerId : Nat
  deriving Repr, DecidableEq

/-- Source `file.name.replace(/\.[^/.]+$/, "")`: drop a final extension — a dot
followed by at least one character none of which is a dot or a slash. -/
def stripExt (s : String) : String :=
  let rev := s.toList.reverse
  let run := rev.takeWhile (fun c => c ≠ '.' && c ≠ '/')
  match rev.drop run.length with
  | '.' :: rest => if run.length = 0 then s else String.mk rest.reverse
  | _ => s

/-- An `IDBObjectStore.put` on the `audioFiles` store (keyPath
`filename`): replace the record with the same key, append otherwise. -/
def putAudio (files : List AudioFile) (a : AudioFile) : List AudioFile :=
  if files.any (fun f => f.filename = a.filename) then
    files.map (fun f => if f.filename = a.filename then a else f)
  else files ++ [a]

/-- Partial settings update (`Partial<Omit<Settings, 'id'>>`). -/
structure SettingsPatch where
  defaultResponseEnabled : Option Bool := none
  defaultResponseSoundClipIds : Option (List Nat) := none
  defaultResponseDelay : Option Nat := none
  defaultResponseIndex : Option Nat := none
  deriving Repr, DecidableEq

/-- Spread-merge `{ ...existing, ...patch }` for settings. -/
def applySettingsPatch (existing : Settings) (p : SettingsPatch) : Settings :=
  { existing with
    defaultResponseEnabled := p.defaultResponseEnabled.getD existing.defaultResponseEnabled,
    defaultResponseSoundClipIds :=
      p.defaultResponseSoundClipIds.getD existing.defaultResponseSoundClipIds,
    defaultResponseDelay := p.defaultResponseDelay.getD existing.defaultResponseDelay,
    defaultResponseIndex := p.defaultResponseIndex.getD existing.defaultResponseIndex }

/-- Partial trigger-word update (`Partial<Omit<TriggerWord, 'id'>>`). -/
structure TriggerWordPatch where
  phrase : Option String := none
  caseSensitive : Option Bool := none
  enabled : Option Bool := none
  soundClipIds : Option (List Nat) := none
  currentIndex : Option Nat := none
  deriving Repr, DecidableEq

/-- Spread-merge `{ ...existing, ...patch }` for trigger words. -/
def applyTriggerWordPatch (existing : TriggerWord) (p : TriggerWordPatch) : TriggerWord :=
  { existing with
    phrase := p.phrase.getD existing.phrase,
    caseSensitive := p.caseSensitive.getD existing.caseSensitive,
    enabled := p.enabled.getD existing.enabled,
    soundClipIds := p.soundClipIds.getD existing.soundClipIds,
    currentIndex := p.currentIndex.getD existing.currentIndex }

namespace BrowserStorage

/-- The default settings row materialized lazily by `getSettings` and
`updateSettings` when the store has no row with key 1. -/
def defaultSettingsRow : Settings :=
  { id := 1, defaultResponseEnabled := true, defaultResponseSoundClipIds := [],
    defaultResponseDelay := 0, defaultResponseIndex := 0 }

/-- Source `BrowserStorage.getSettings`: the stored row, or the default row
(which is returned without being persisted). -/
def getSettings (s : BrowserState) : Settings :=
  match s.settingsRow with
  | some r => r
  | none => defaultSettingsRow

/-- Source `BrowserStorage.updateSettings`: fetch the existing row (or the
default), spread-merge the patch in, and `put` the result. -/
def updateSettings (s : BrowserState) (p : SettingsPatch) : Settings × BrowserState :=
  let existing := match s.settingsRow with
    | some r => r
    | none => defaultSettingsRow
  let updated := applySettingsPatch existing p
  (updated, { s with settingsRow := some updated })

/-- Source `BrowserStorage.addToDefaultResponses`: append the new clip id to
`settings.defaultResponseSoundClipIds`. -/
def addToDefaultResponses (s : BrowserState) (soundClipId : Nat) : BrowserState :=
  let settings := getSettings s
  let updatedIds := settings.defaultResponseSoundClipIds ++ [soundClipId]
  (updateSettings s { defaultResponseSoundClipIds := some updatedIds }).2

/-- Source `BrowserStorage.createSoundClip(file)`: store the audio under the
fresh storage key `` `${Date.now()}_${file.name}` ``, add a clip record
whose `name` is the file name with its extension stripped, then append
the new id to the default-response rotation.  `now` stands for
`Date.now()` and `duration` for the audio-element duration probe. -/
def createSoundClip (s : BrowserState) (file : JsFile) (now duration : Nat) :
    SoundClip × BrowserState :=
  let filename := toString now ++ "_" ++ file.name
  let audioFiles1 := putAudio s.audioFiles
    { filename := filename, data := file.bytes, originalName := file.name }
  let soundClip : SoundClip :=
    { id := s.nextClipId,
      name := stripExt file.name,
      filename := filename,
      format := if file.type = "" then "audio/mpeg" else file.type,
      duration := duration,
      size := file.size,
      url := "blob://" ++ filename }
  let s1 := { s with
    audioFiles := audioFiles1,
    soundClips := s.soundClips ++ [soundClip],
    nextClipId := s.nextClipId + 1 }
  (soundClip, addToDefaultResponses s1 soundClip.id)

/-- Source `BrowserStorage.getTriggerWord` (a `get` on the keyPath `id`). -/
def getTriggerWord (s : BrowserState) (id : Nat) : Option TriggerWord :=
  s.triggerWords.find? (fun t => t.id = id)

/-- Source `BrowserStorage.createTriggerWord`: `add` assigns the next
`autoIncrement` key; the incoming record's `id` field is ignored. -/
def createTriggerWord (s : BrowserState) (t : TriggerWord) : TriggerWord × BrowserState :=
  let created := { t with id := s.nextTriggerId }
  (created, { s with
    triggerWords := s.triggerWords ++ [created],
    nextTriggerId := s.nextTriggerId + 1 })

/-- Source `BrowserStorage.updateTriggerWord`: `undefined` when the trigger does
not exist; otherwise spread-merge the patch and `put` the result. -/
def updateTriggerWord (s : BrowserState) (id : Nat) (p : TriggerWordPatch) :
    Option TriggerWord × BrowserState :=
  match s.triggerWords.find? (fun t => t.id = id) with
  | none => (none, s)
  | some existing =>
    let updated := applyTriggerWordPatch existing p
    (some updated,
     { s with triggerWords := s.triggerWords.map (fun t => if t.id = id then updated else t) })

/-- Source `BrowserStorage.deleteTriggerWord`. -/
def deleteTriggerWord (s : BrowserState) (id : Nat) : BrowserState :=
  { s with triggerWords := s.triggerWords.filter (fun t => t.id ≠ id) }

/-- Source `BrowserStorage.getNextSoundClipForTrigger`: like the server version,
but reads `trigger.currentIndex || 0` (identity on `Nat`) and persists
the advanced cursor through `updateTriggerWord`. -/
def getNextSoundClipForTrigger (s : BrowserState) (triggerId : Nat) :
    Option Nat × BrowserState :=
  match getTriggerWord s triggerId with
  | none => (none, s)
  | some trigger =>
    if trigger.soundClipIds.length = 0 then (none, s)
    else
      let currentIndex := trigger.currentIndex
      let soundClipId := trigger.soundClipIds.get? currentIndex
      let nextIndex := (currentIndex + 1) % trigger.soundClipIds.length
      (soundClipId, (updateTriggerWord s triggerId { currentIndex := some nextIndex }).2)

/-- Source `BrowserStorage.removeFromDefaultResponses`: filter the clip id out of
the default-response rotation list. -/
def removeFromDefaultResponses (s : BrowserState) (soundClipId : Nat) : BrowserState :=
  let settings := getSettings s
  let updatedIds := settings.defaultResponseSoundClipIds.filter (fun id => id ≠ soundClipId)
  (updateSettings s { defaultResponseSoundClipIds := some updatedIds }).2

/-- Source `BrowserStorage.removeFromTriggerWords`: iterate over a snapshot of
the triggers; a trigger containing the clip id is deleted when the
filtered list is empty and otherwise updated with the filtered
`soundClipIds` only — its `currentIndex` is left untouched. -/
def removeFromTriggerWords (s : BrowserState) (soundClipId : Nat) : BrowserState :=
  s.triggerWords.foldl (fun acc trigger =>
    if trigger.soundClipIds.contains soundClipId then
      let updatedIds := trigger.soundClipIds.filter (fun id => id ≠ soundClipId)
      if updatedIds.length = 0 then deleteTriggerWord acc trigger.id
      else (updateTriggerWord acc trigger.id { soundClipIds := some updatedIds }).2
    else acc) s

/-- Source `BrowserStorage.deleteSoundClip`: no-op on a missing id; otherwise
delete the audio record and the clip record, then clean up the
default-response list and the trigger words. -/
def deleteSoundClip (s : BrowserState) (id : Nat) : BrowserState :=
  match s.soundClips.find? (fun c => c.id = id) with
  | none => s
  | some soundClip =>
    let s1 := { s with
      audioFiles := s.audioFiles.filter (fun a => a.filename ≠ soundClip.filename),
      soundClips := s.soundClips.filter (fun c => c.id ≠ id) }
    removeFromTriggerWords (removeFromDefaultResponses s1 id) id

/-- Source `BrowserStorage.getNextDefaultResponse`: `null` only when the
default-response list is empty (the `defaultResponseEnabled` flag is not
consulted); otherwise return the clip at `defaultResponseIndex || 0` and
persist the advanced cursor. -/
def getNextDefaultResponse (s : BrowserState) : Option Nat × BrowserState :=
  let settings := getSettings s
  let soundClipIds := settings.defaultResponseSoundClipIds
  if soundClipIds.length = 0 then (none, s)
  else
    let currentIndex := settings.defaultResponseIndex
    let soundClipId := soundClipIds.get? currentIndex
    let nextIndex := (currentIndex + 1) % soundClipIds.length
    (soundClipId, (updateSettings s { defaultResponseIndex := some nextIndex }).2)

/-- Source `BrowserStorage.clearAllData`: clear the four object stores (the
`autoIncrement` key generators are not reset by IndexedDB `clear()`). -/
def clearAllData (s : BrowserState) : BrowserState :=
  { s with soundClips := [], triggerWords := [], settingsRow := none, audioFiles := [] }

end BrowserStorage

/-! ## Profile document and serializer (`BrowserStorage.exportProfile` / `importProfile`) -/

/-- A clip entry of the profile document. -/
structure ProfileClip where
  name : String
  filename : String
  format : String
  duration : Nat
  size : Nat
  audioData : String
  deriving Repr, DecidableEq

/-- A trigger entry of the profile document (plural `soundClipNames`). -/
structure ProfileTrigger where
  phrase : String
  soundClipNames : List String
  caseSensitive : Bool
  enabled : Bool
  deriving Repr, DecidableEq

/-- The settings entry of the profile document. -/
structure ProfileSettings where
  defaultResponseEnabled : Bool
  defaultResponseSoundClipNames : List String
  defaultResponseDelay : Nat
  deriving Repr, DecidableEq

/-- A parsed profile document.  Every top-level key is optional: the
importing code reads each one defensively (`profileData.soundClips || []`,
`if (profileData.settings)`), so a missing key is representable. -/
structure ProfileDoc where
  version : Option String := none
  exportDate : Option String := none
  soundClips : Option (List ProfileClip) := none
  triggerWords : Option (List ProfileTrigger) := none
  settings : Option ProfileSettings := none
  deriving Repr, DecidableEq

/-- Source `Map.set` on the string-keyed `soundClipNameToId` map. -/
def mapSetStr (l : List (String × Nat)) (k : String) (v : Nat) : List (String × Nat) :=
  if l.any (fun p => p.1 = k) then
    l.map (fun p => if p.1 = k then (k, v) else p)
  else l ++ [(k, v)]

namespace BrowserStorage

/-- Source `BrowserStorage.exportProfile`: embed each clip's audio as base64
(skipping clips whose audio blob is missing), resolve clip ids to clip
names for triggers (skipping triggers with no resolvable name) and for
the default-response list, and wrap everything with `version` and
`exportDate` (the latter an environment input). -/
def exportProfile (s : BrowserState) (exportDate : String) : ProfileDoc :=
  let soundClips := s.soundClips
  let profileSoundClips := soundClips.filterMap (fun clip =>
    match s.audioFiles.find? (fun a => a.filename = clip.filename) with
    | some audioBlob => some
        { name := clip.name, filename := clip.filename, format := clip.format,
          duration := clip.duration, size := clip.size,
          audioData := btoa audioBlob.data }
    | none => none)
  let profileTriggerWords := s.triggerWords.filterMap (fun trigger =>
    let soundClipNames : List String := trigger.soundClipIds.filterMap (fun clipId =>
      (soundClips.find? (fun clip => clip.id = clipId)).map (fun clip => clip.name))
    if soundClipNames.length > 0 then
      some ({ phrase := trigger.phrase, soundClipNames := soundClipNames,
              caseSensitive := trigger.caseSensitive,
              enabled := trigger.enabled } : ProfileTrigger)
    else none)
  let settings := getSettings s
  let defaultResponseSoundClipNames :=
    settings.defaultResponseSoundClipIds.filterMap (fun id =>
      (soundClips.find? (fun clip => clip.id = id)).map (fun clip => clip.name))
  { version := some "1.0",
    exportDate := some exportDate,
    soundClips := some profileSoundClips,
    triggerWords := some profileTriggerWords,
    settings := some
      { defaultResponseEnabled := settings.defaultResponseEnabled,
        defaultResponseSoundClipNames := defaultResponseSoundClipNames,
        defaultResponseDelay := if settings.defaultResponseDelay = 0 then 2000
                                else settings.defaultResponseDelay } }

/-- Clip-import loop of `importProfile`: decode the base64 payload, wrap
it in a `File` named after the exported storage `filename`, create the
clip through `createSoundClip`, and record `name ↦ new id` in the map. -/
def importClips (state : BrowserState) (nameToId : List (String × Nat))
    (clips : List ProfileClip) (now duration : Nat) :
    BrowserState × List (String × Nat) :=
  clips.foldl (fun acc profileClip =>
    let bytes := atob profileClip.audioData
    let file : JsFile :=
      { name := profileClip.filename, type := profileClip.format, bytes := bytes }
    let created := createSoundClip acc.1 file now duration
    (created.2, mapSetStr acc.2 profileClip.name created.1.id))
    (state, nameToId)

/-- Resolve profile names through the `soundClipNameToId` map; the JS
truthiness test `if (id)` additionally drops a mapped id of 0. -/
def resolveNames (nameToId : List (String × Nat)) (names : List String) : List Nat :=
  names.filterMap (fun name =>
    match nameToId.lookup name with
    | some id => if id ≠ 0 then some id else none
    | none => none)

/-- Trigger-import loop of `importProfile`: resolve the stored clip names
and create the trigger (fresh cursor 0) only when at least one name
resolved. -/
def importTriggers (state : BrowserState) (nameToId : List (String × Nat))
    (triggers : List ProfileTrigger) : BrowserState :=
  triggers.foldl (fun acc profileTrigger =>
    let soundClipIds := resolveNames nameToId profileTrigger.soundClipNames
    if soundClipIds.length > 0 then
      (createTriggerWord acc
        { id := 0, phrase := profileTrigger.phrase,
          caseSensitive := profileTrigger.caseSensitive,
          enabled := profileTrigger.enabled,
          soundClipIds := soundClipIds, currentIndex := 0 }).2
    else acc) state

/-- Source `BrowserStorage.importProfile`: destructive import — clear everything
first, then recreate clips (building the name map), triggers, and
settings (resetting `defaultResponseIndex` to 0).  No validation of the
document is performed; missing keys are treated as empty collections. -/
def importProfile (s : BrowserState) (profileData : ProfileDoc) (now duration : Nat) :
    BrowserState :=
  let s0 := clearAllData s
  let imported := importClips s0 [] (profileData.soundClips.getD []) now duration
  let s1 := imported.1
  let nameToId := imported.2
  let s2 := importTriggers s1 nameToId (profileData.triggerWords.getD [])
  match profileData.settings with
  | none => s2
  | some ps =>
    let defaultResponseSoundClipIds :=
      resolveNames nameToId ps.defaultResponseSoundClipNames
    (updateSettings s2
      { defaultResponseEnabled := some ps.defaultResponseEnabled,
        defaultResponseSoundClipIds := some defaultResponseSoundClipIds,
        defaultResponseDelay := some (if ps.defaultResponseDelay = 0 then 2000
                                      else ps.defaultResponseDelay),
        defaultResponseIndex := some 0 }).2

end BrowserStorage

/-! ## Claim theorems -/

/-- C3: for every finalized transcript and enabled trigger, matching is
exactly substring containment — verbatim when `caseSensitive`, on
lower-cased strings otherwise; it is not word-boundary matching
(`"hi there"` matches phrase `"hi"`), `"Hi"` with `caseSensitive = true`
does not match `"hi there"` while with `caseSensitive = false` it does,
and disabled triggers never match. -/
theorem triggerMatches_substring_spec :
    (∀ (t : TriggerWord) (T : String),
        triggerMatches t T =
          (t.enabled &&
            (if t.caseSensitive then strIncludes T t.phrase
             else strIncludes (lowerStr T) (lowerStr t.phrase))))
    ∧ triggerMatches ⟨1, "hi", false, true, [2], 0⟩ "hi there" = true
    ∧ triggerMatches ⟨1, "Hi", true, true, [2], 0⟩ "hi there" = false
    ∧ triggerMatches ⟨1, "Hi", false, true, [2], 0⟩ "hi there" = true
    ∧ (∀ (t : TriggerWord) (T : String),
        triggerMatches { t with enabled := false } T = false) := by
  refine ⟨?_, by decide, by decide, by decide, ?_⟩
  · intro t T
    by_cases hc : t.caseSensitive <;>
      simp [triggerMatches, searchTextFor, comparePhrase, hc]
  · intro t T
    simp [triggerMatches]

/-- C10: in the browser backend, a successful `createSoundClip` appends
the freshly assigned clip id to `Settings.defaultResponseSoundClipIds`
as a side effect, for every starting state. -/
theorem createSoundClip_appends_default_response :
    ∀ (s : BrowserState) (file : JsFile) (now duration : Nat),
      (BrowserStorage.getSettings
          (BrowserStorage.createSoundClip s file now duration).2).defaultResponseSoundClipIds
        = (BrowserStorage.getSettings s).defaultResponseSoundClipIds
          ++ [(BrowserStorage.createSoundClip s file now duration).1.id]
      ∧ (BrowserStorage.createSoundClip s file now duration).1.id = s.nextClipId := by
  intro s file now duration
  constructor
  · cases h : s.settingsRow <;>
      simp [BrowserStorage.createSoundClip, BrowserStorage.addToDefaultResponses,
        BrowserStorage.updateSettings, BrowserStorage.getSettings,
        BrowserStorage.defaultSettingsRow, applySettingsPatch, h]
  · rfl

/-- Processing one trigger never touches the `defaultScheduled` flag. -/
theorem checkTrigger_defaultScheduled (now : Nat) (text : String)
    (acc : CheckResult) (t : TriggerWord) :
    (checkTrigger now text acc t).defaultScheduled = acc.defaultScheduled := by
  simp only [checkTrigger]
  repeat' split
  all_goals rfl

/-- The trigger loop never touches the `defaultScheduled` flag. -/
theorem foldl_checkTrigger_defaultScheduled (triggers : List TriggerWord)
    (now : Nat) (text : String) (acc : CheckResult) :
    (triggers.foldl (checkTrigger now text) acc).defaultScheduled =
      acc.defaultScheduled := by
  induction triggers generalizing acc with
  | nil => rfl
  | cons t ts ih => rw [List.foldl_cons, ih, checkTrigger_defaultScheduled]

/-- One loop step sets `triggerMatched` exactly when the trigger matches
(cooldown suppression does not reset it). -/
theorem checkTrigger_triggerMatched (now : Nat) (text : String)
    (acc : CheckResult) (t : TriggerWord) :
    (checkTrigger now text acc t).triggerMatched =
      (acc.triggerMatched || triggerMatches t text) := by
  simp only [checkTrigger, triggerMatches]
  cases he : t.enabled with
  | false => simp [he]
  | true =>
    cases hi : strIncludes (searchTextFor t text) (comparePhrase t) with
    | false => simp [he, hi]
    | true =>
      simp only [he, hi, Bool.not_true, Bool.false_eq_true, if_false, if_true,
        Bool.and_self, Bool.or_true]
      split <;> rfl

/-- A non-matching trigger leaves the loop state untouched. -/
theorem checkTrigger_of_not_matches (now : Nat) (text : String)
    (acc : CheckResult) (t : TriggerWord)
    (h : triggerMatches t text = false) :
    checkTrigger now text acc t = acc := by
  simp only [checkTrigger]
  unfold triggerMatches at h
  cases he : t.enabled with
  | false => simp [he]
  | true =>
    rw [he] at h
    simp only [Bool.true_and] at h
    simp [he, h]

/-- After the loop, `triggerMatched` is exactly "some trigger matches". -/
theorem foldl_checkTrigger_triggerMatched (triggers : List TriggerWord)
    (now : Nat) (text : String) (acc : CheckResult) :
    (triggers.foldl (checkTrigger now text) acc).triggerMatched =
      (acc.triggerMatched || triggers.any (fun t => triggerMatches t text)) := by
  induction triggers generalizing acc with
  | nil => simp
  | cons t ts ih =>
    rw [List.foldl_cons, ih, checkTrigger_triggerMatched]
    simp [Bool.or_assoc]

/-- When no trigger matches, the loop is the identity on its state. -/
theorem foldl_checkTrigger_no_match (triggers : List TriggerWord)
    (now : Nat) (text : String) (acc : CheckResult)
    (h : ∀ t ∈ triggers, triggerMatches t text = false) :
    triggers.foldl (checkTrigger now text) acc = acc := by
  induction triggers generalizing acc with
  | nil => rfl
  | cons t ts ih =>
    rw [List.foldl_cons, checkTrigger_of_not_matches now text acc t (h t (by simp))]
    exact ih acc (fun u hu => h u (by simp [hu]))

/-- C5: the default-response fallback is scheduled exactly when no
trigger matched (a cooldown-suppressed match still counts as a match),
the trimmed transcript is non-empty, the default response is enabled
with a non-empty clip list, and the singleton `"default-response"`
cooldown key is not active; in particular an empty transcript never
schedules the fallback. -/
theorem default_response_gate_spec :
    (∀ (triggers : List TriggerWord) (settings : Settings) (now : Nat)
        (cooldowns : List CooldownEntry) (text : String),
        (checkForTriggerWords triggers settings now cooldowns text).defaultScheduled =
          (!(triggers.any (fun t => triggerMatches t text))
            && decide ((strTrim text).length > 0)
            && settings.defaultResponseEnabled
            && decide (settings.defaultResponseSoundClipIds.length > 0)
            && !hasCooldown cooldowns now "default-response"))
    ∧ (∀ (triggers : List TriggerWord) (settings : Settings) (now : Nat)
        (cooldowns : List CooldownEntry),
        (checkForTriggerWords triggers settings now cooldowns "").defaultScheduled = false) := by
  constructor
  · intro triggers settings now cooldowns text
    unfold checkForTriggerWords
    cases hm : triggers.any (fun t => triggerMatches t text) with
    | true =>
      have h1 := foldl_checkTrigger_triggerMatched triggers now text
        { cooldowns := cooldowns, fired := [], triggerMatched := false, defaultScheduled := false }
      have h2 := foldl_checkTrigger_defaultScheduled triggers now text
        { cooldowns := cooldowns, fired := [], triggerMatched := false, defaultScheduled := false }
      rw [hm] at h1
      simp only [Bool.false_or] at h1
      simp [h1, h2]
    | false =>
      have hall : ∀ t ∈ triggers, triggerMatches t text = false := by
        simpa using hm
      rw [foldl_checkTrigger_no_match triggers now text _ hall]
      cases h1 : decide ((strTrim text).length > 0) <;>
        cases h2 : settings.defaultResponseEnabled <;>
        cases h3 : decide (settings.defaultResponseSoundClipIds.length > 0) <;>
        cases h4 : hasCooldown cooldowns now "default-response" <;>
        simp [h1, h2, h3, h4]
  · intro triggers settings now cooldowns
    unfold checkForTriggerWords
    have h2 := foldl_checkTrigger_defaultScheduled triggers now ""
      { cooldowns := cooldowns, fired := [], triggerMatched := false, defaultScheduled := false }
    have htrim : decide ((strTrim "").length > 0) = false := by decide
    simp [htrim, h2]

/-- Membership after appending one cooldown entry. -/
theorem hasCooldown_append (cds : List CooldownEntry) (now : Nat)
    (e : CooldownEntry) (key : String) :
    hasCooldown (cds ++ [e]) now key =
      (hasCooldown cds now key || (e.key = key && decide (now < e.expiry))) := by
  simp [hasCooldown]

/-- C4: the cooldown key of a matching trigger is determined by
`(triggerId, phraseUsedForMatch)`; an inactive key is inserted with a
2000 ms expiry and the trigger's play pipeline starts, while an active
key suppresses the trigger (nothing fired, cooldown set unchanged) —
so processing the same trigger and phrase at `t0` and again before
`t0 + 2000` fires exactly once, and processing again at or after
`t0 + 2000` fires a second time. -/
theorem cooldown_suppression_spec :
    ∀ (t : TriggerWord) (settings : Settings) (text : String)
      (cds : List CooldownEntry) (t0 t1 t2 : Nat),
      triggerMatches t text = true →
      hasCooldown cds t0 (cooldownKey t) = false →
      t1 < t0 + 2000 →
      t0 + 2000 ≤ t2 →
      hasCooldown cds t2 (cooldownKey t) = false →
      cooldownKey t = toString t.id ++ "-" ++ comparePhrase t
      ∧ (checkForTriggerWords [t] settings t0 cds text).fired = [t.id]
      ∧ (checkForTriggerWords [t] settings t0 cds text).cooldowns =
          cds ++ [⟨cooldownKey t, t0 + 2000⟩]
      ∧ (checkForTriggerWords [t] settings t1
            (cds ++ [⟨cooldownKey t, t0 + 2000⟩]) text).fired = []
      ∧ (checkForTriggerWords [t] settings t1
            (cds ++ [⟨cooldownKey t, t0 + 2000⟩]) text).cooldowns =
          cds ++ [⟨cooldownKey t, t0 + 2000⟩]
      ∧ (checkForTriggerWords [t] settings t2
            (cds ++ [⟨cooldownKey t, t0 + 2000⟩]) text).fired = [t.id] := by
  intro t settings text cds t0 t1 t2 hmatch hc0 ht1 ht2 hc2
  have henabled : t.enabled = true := by
    unfold triggerMatches at hmatch
    exact (Bool.and_eq_true_iff.mp hmatch).1
  have hinc : strIncludes (searchTextFor t text) (comparePhrase t) = true := by
    unfold triggerMatches at hmatch
    exact (Bool.and_eq_true_iff.mp hmatch).2
  have hcd1 : hasCooldown (cds ++ [⟨cooldownKey t, t0 + 2000⟩]) t1 (cooldownKey t) = true := by
    rw [hasCooldown_append]
    simp [ht1]
  have hcd2 : hasCooldown (cds ++ [⟨cooldownKey t, t0 + 2000⟩]) t2 (cooldownKey t) = false := by
    rw [hasCooldown_append, hc2]
    simp [Nat.not_lt.mpr ht2]
  refine ⟨rfl, ?_, ?_, ?_, ?_, ?_⟩ <;>
    simp [checkForTriggerWords, checkTrigger, henabled, hinc, hc0, hcd1, hcd2]

/-- Witness for C4 at trigger 1 / phrase `"hi"` / transcript
`"hi there"`, processed at times 0, 1999 and 2000. -/
theorem cooldown_suppression_spec_witness :
    (checkForTriggerWords [⟨1, "hi", false, true, [2], 0⟩]
        ⟨1, false, [], 2000, 0⟩ 0 [] "hi there").fired = [1]
    ∧ (checkForTriggerWords [⟨1, "hi", false, true, [2], 0⟩]
        ⟨1, false, [], 2000, 0⟩ 1999
        ([] ++ [⟨cooldownKey ⟨1, "hi", false, true, [2], 0⟩, 0 + 2000⟩]) "hi there").fired = []
    ∧ (checkForTriggerWords [⟨1, "hi", false, true, [2], 0⟩]
        ⟨1, false, [], 2000, 0⟩ 2000
        ([] ++ [⟨cooldownKey ⟨1, "hi", false, true, [2], 0⟩, 0 + 2000⟩]) "hi there").fired = [1] := by
  have h := cooldown_suppression_spec ⟨1, "hi", false, true, [2], 0⟩
    ⟨1, false, [], 2000, 0⟩ "hi there" [] 0 1999 2000
    (by decide) (by decide) (by decide) (by decide) (by decide)
  exact ⟨h.2.1, h.2.2.2.1, h.2.2.2.2.2⟩

/-- A key that is bound in an association list is seen by `any`. -/
theorem lookup_any {α : Type} (l : List (Nat × α)) (k : Nat) (w : α)
    (h : l.lookup k = some w) : l.any (fun p => p.1 = k) = true := by
  induction l with
  | nil => simp [List.lookup] at h
  | cons a l ih =>
    rcases a with ⟨k1, v1⟩
    by_cases hk : k = k1
    · simp [hk]
    · rw [List.lookup_cons] at h
      rw [beq_false_of_ne hk] at h
      simp only [List.any_cons]
      rw [ih h]
      simp

/-- An unbound key looked up after `Map.set` appended it. -/
theorem lookup_append_self {α : Type} (l : List (Nat × α)) (k : Nat) (v : α)
    (h : l.any (fun p => p.1 = k) = false) :
    (l ++ [(k, v)]).lookup k = some v := by
  induction l with
  | nil => simp [List.lookup]
  | cons a l ih =>
    rcases a with ⟨k1, v1⟩
    simp only [List.any_cons, Bool.or_eq_false_iff, decide_eq_false_iff_not] at h
    have hk : ¬(k = k1) := fun he => h.1 he.symm
    rw [List.cons_append, List.lookup_cons, beq_false_of_ne hk]
    exact ih (by simpa using h.2)

/-- A bound key looked up after the replace branch of `Map.set`. -/
theorem lookup_map_replace {α : Type} (l : List (Nat × α)) (k : Nat) (v : α)
    (h : l.any (fun p => p.1 = k) = true) :
    (l.map (fun p => if p.1 = k then (k, v) else p)).lookup k = some v := by
  induction l with
  | nil => simp at h
  | cons a l ih =>
    rcases a with ⟨k1, v1⟩
    by_cases hk : k1 = k
    · subst hk
      simp [List.lookup_cons]
    · simp only [List.any_cons] at h
      rw [show (decide (((k1, v1) : Nat × α).1 = k)) = false by simp [hk]] at h
      simp only [Bool.false_or] at h
      simp only [List.map_cons]
      rw [if_neg hk, List.lookup_cons, beq_false_of_ne (fun he => hk he.symm)]
      exact ih h

/-- Looking up the key just written by `Map.set`. -/
theorem lookup_mapSet_self {α : Type} (l : List (Nat × α)) (k : Nat) (v : α) :
    (mapSet l k v).lookup k = some v := by
  unfold mapSet
  cases h : l.any (fun p => p.1 = k) with
  | true =>
    rw [if_pos rfl]
    exact lookup_map_replace l k v h
  | false =>
    simp only [Bool.false_eq_true, if_false]
    exact lookup_append_self l k v h

/-- One non-trivial rotation step: the returned id is the one at
`currentIndex`, and the stored trigger advances to
`(currentIndex + 1) % length`. -/
theorem getNextSoundClip_step (s : MemState) (tid : Nat) (tw : TriggerWord)
    (hlk : s.triggerWords.lookup tid = some tw)
    (hne : tw.soundClipIds.length ≠ 0) :
    MemStorage.getNextSoundClipForTrigger s tid =
      (tw.soundClipIds.get? tw.currentIndex,
       { s with triggerWords := (mapSet s.triggerWords tid
           { tw with currentIndex := (tw.currentIndex + 1) % tw.soundClipIds.length }) }) := by
  unfold MemStorage.getNextSoundClipForTrigger
  rw [hlk]
  simp [hne]

/-- Indexing a list over `range` of its length lists its elements. -/
theorem range_map_get_eq_map_some {α : Type} (l : List α) :
    (List.range l.length).map (fun k => l.get? k) = l.map some := by
  induction l with
  | nil => simp
  | cons a l ih =>
    have hcomp : ((fun k => (a :: l).get? k) ∘ Nat.succ) = fun k => l.get? k := by
      funext k
      simp
    rw [List.length_cons, List.range_succ_eq_map, List.map_cons, List.map_map, hcomp, ih]
    simp

/-- The `k`-th of `n` successive rotation calls returns the id at
position `(currentIndex + k) % length`, provided the cursor invariant
holds at the start. -/
theorem runNext_outputs :
    ∀ (n : Nat) (s : MemState) (tid : Nat) (tw : TriggerWord),
      s.triggerWords.lookup tid = some tw →
      tw.currentIndex < tw.soundClipIds.length →
      (MemStorage.runNext s tid n).1 =
        (List.range n).map
          (fun k => tw.soundClipIds.get? ((tw.currentIndex + k) % tw.soundClipIds.length)) := by
  intro n
  induction n with
  | zero => intro s tid tw _ _; rfl
  | succ n ih =>
    intro s tid tw hlk hci
    have hne : tw.soundClipIds.length ≠ 0 := by omega
    have hstep := getNextSoundClip_step s tid tw hlk hne
    have hlk1 : (mapSet s.triggerWords tid
        { tw with currentIndex := (tw.currentIndex + 1) % tw.soundClipIds.length }).lookup tid =
        some { tw with currentIndex := (tw.currentIndex + 1) % tw.soundClipIds.length } :=
      lookup_mapSet_self _ _ _
    have hci1 : (tw.currentIndex + 1) % tw.soundClipIds.length < tw.soundClipIds.length :=
      Nat.mod_lt _ (Nat.pos_of_ne_zero hne)
    have hrest := ih
      { s with triggerWords := (mapSet s.triggerWords tid
          { tw with currentIndex := (tw.currentIndex + 1) % tw.soundClipIds.length }) } tid
      { tw with currentIndex := (tw.currentIndex + 1) % tw.soundClipIds.length }
      hlk1 (by simpa using hci1)
    unfold MemStorage.runNext
    rw [hstep]
    simp only [hrest]
    rw [List.range_succ_eq_map, List.map_cons, List.map_map]
    congr 1
    · rw [Nat.add_zero, Nat.mod_eq_of_lt hci]
    · apply List.map_congr_left
      intro k _
      simp only [Function.comp_apply]
      rw [Nat.mod_add_mod,
        show tw.currentIndex + 1 + k = tw.currentIndex + k.succ from by omega]

/-- C1: for a trigger with a non-empty clip sequence (and the cursor
invariant `currentIndex < length`), `getNextSoundClipForTrigger`
returns the clip id at `currentIndex` and stores
`currentIndex := (currentIndex + 1) % length`; starting from cursor 0,
N calls on a sequence of length N return exactly the sequence in order
and call N+1 repeats the first id; a missing trigger or an empty
sequence yields `null` with the state unchanged. -/
theorem rotation_cursor_spec :
    (∀ (s : MemState) (tid : Nat) (tw : TriggerWord),
        s.triggerWords.lookup tid = some tw →
        tw.currentIndex < tw.soundClipIds.length →
        (MemStorage.getNextSoundClipForTrigger s tid).1 =
            tw.soundClipIds.get? tw.currentIndex
          ∧ ((MemStorage.getNextSoundClipForTrigger s tid).2).triggerWords.lookup tid =
              some { tw with
                currentIndex := (tw.currentIndex + 1) % tw.soundClipIds.length })
    ∧ (∀ (s : MemState) (tid : Nat) (tw : TriggerWord),
        s.triggerWords.lookup tid = some tw →
        tw.currentIndex = 0 →
        (MemStorage.runNext s tid tw.soundClipIds.length).1 = tw.soundClipIds.map some
        ∧ (tw.soundClipIds.length ≠ 0 →
            (MemStorage.runNext s tid (tw.soundClipIds.length + 1)).1 =
              tw.soundClipIds.map some ++ [tw.soundClipIds.get? 0]))
    ∧ (∀ (s : MemState) (tid : Nat) (tw : TriggerWord),
        s.triggerWords.lookup tid = some tw →
        tw.soundClipIds = [] →
        MemStorage.getNextSoundClipForTrigger s tid = (none, s))
    ∧ (∀ (s : MemState) (tid : Nat),
        s.triggerWords.lookup tid = none →
        MemStorage.getNextSoundClipForTrigger s tid = (none, s)) := by
  refine ⟨?_, ?_, ?_, ?_⟩
  · intro s tid tw hlk hci
    have hne : tw.soundClipIds.length ≠ 0 := by omega
    rw [getNextSoundClip_step s tid tw hlk hne]
    exact ⟨rfl, lookup_mapSet_self _ _ _⟩
  · intro s tid tw hlk hci0
    by_cases hlen : tw.soundClipIds.length = 0
    · have hnil : tw.soundClipIds = [] := List.length_eq_zero.mp hlen
      refine ⟨?_, fun h => absurd hlen h⟩
      rw [hnil]
      rfl
    · have hci : tw.currentIndex < tw.soundClipIds.length := by
        rw [hci0]; exact Nat.pos_of_ne_zero hlen
      constructor
      · rw [runNext_outputs _ s tid tw hlk hci]
        rw [show ((List.range tw.soundClipIds.length).map
            (fun k => tw.soundClipIds.get? ((tw.currentIndex + k) % tw.soundClipIds.length))) =
            ((List.range tw.soundClipIds.length).map (fun k => tw.soundClipIds.get? k)) from
          List.map_congr_left (fun k hk => by
            rw [hci0, Nat.zero_add, Nat.mod_eq_of_lt (List.mem_range.mp hk)])]
        exact range_map_get_eq_map_some tw.soundClipIds
      · intro _
        rw [runNext_outputs _ s tid tw hlk hci]
        rw [List.range_succ, List.map_append]
        congr 1
        · rw [show ((List.range tw.soundClipIds.length).map
              (fun k => tw.soundClipIds.get? ((tw.currentIndex + k) % tw.soundClipIds.length))) =
              ((List.range tw.soundClipIds.length).map (fun k => tw.soundClipIds.get? k)) from
            List.map_congr_left (fun k hk => by
              rw [hci0, Nat.zero_add, Nat.mod_eq_of_lt (List.mem_range.mp hk)])]
          exact range_map_get_eq_map_some tw.soundClipIds
        · rw [List.map_singleton, hci0, Nat.zero_add, Nat.mod_self]
  · intro s tid tw hlk hids
    unfold MemStorage.getNextSoundClipForTrigger
    rw [hlk]
    simp [hids]
  · intro s tid hlk
    unfold MemStorage.getNextSoundClipForTrigger
    rw [hlk]

/-- Witness for C1 on a trigger with `soundClipIds = [2, 3]` and cursor
0: the first call returns 2 and advances the cursor; two calls return
[2, 3]; three calls return [2, 3, 2]; afterwards the empty and missing
cases at concrete states. -/
theorem rotation_cursor_spec_witness :
    (MemStorage.getNextSoundClipForTrigger
        ⟨[], [(1, ⟨1, "hi", false, true, [2, 3], 0⟩)], ⟨1, false, [], 2000, 0⟩, 1, 2⟩ 1).1 = some 2
    ∧ ((MemStorage.getNextSoundClipForTrigger
        ⟨[], [(1, ⟨1, "hi", false, true, [2, 3], 0⟩)], ⟨1, false, [], 2000, 0⟩, 1, 2⟩ 1).2).triggerWords.lookup 1 =
        some ⟨1, "hi", false, true, [2, 3], 1⟩
    ∧ (MemStorage.runNext
        ⟨[], [(1, ⟨1, "hi", false, true, [2, 3], 0⟩)], ⟨1, false, [], 2000, 0⟩, 1, 2⟩ 1 2).1 =
        [some 2, some 3]
    ∧ (MemStorage.runNext
        ⟨[], [(1, ⟨1, "hi", false, true, [2, 3], 0⟩)], ⟨1, false, [], 2000, 0⟩, 1, 2⟩ 1 3).1 =
        [some 2, some 3, some 2]
    ∧ MemStorage.getNextSoundClipForTrigger
        ⟨[], [(7, ⟨7, "x", false, true, [], 0⟩)], ⟨1, false, [], 2000, 0⟩, 1, 8⟩ 7 =
        (none, ⟨[], [(7, ⟨7, "x", false, true, [], 0⟩)], ⟨1, false, [], 2000, 0⟩, 1, 8⟩)
    ∧ MemStorage.getNextSoundClipForTrigger
        ⟨[], [], ⟨1, false, [], 2000, 0⟩, 1, 1⟩ 9 =
        (none, ⟨[], [], ⟨1, false, [], 2000, 0⟩, 1, 1⟩) := by
  have h1 := rotation_cursor_spec.1
    ⟨[], [(1, ⟨1, "hi", false, true, [2, 3], 0⟩)], ⟨1, false, [], 2000, 0⟩, 1, 2⟩ 1
    ⟨1, "hi", false, true, [2, 3], 0⟩ (by decide) (by decide)
  have h2 := rotation_cursor_spec.2.1
    ⟨[], [(1, ⟨1, "hi", false, true, [2, 3], 0⟩)], ⟨1, false, [], 2000, 0⟩, 1, 2⟩ 1
    ⟨1, "hi", false, true, [2, 3], 0⟩ (by decide) rfl
  have h3 := rotation_cursor_spec.2.2.1
    ⟨[], [(7, ⟨7, "x", false, true, [], 0⟩)], ⟨1, false, [], 2000, 0⟩, 1, 8⟩ 7
    ⟨7, "x", false, true, [], 0⟩ (by decide) rfl
  have h4 := rotation_cursor_spec.2.2.2
    ⟨[], [], ⟨1, false, [], 2000, 0⟩, 1, 1⟩ 9 (by decide)
  exact ⟨h1.1, h1.2, h2.1, h2.2 (by decide), h3, h4⟩

/-- A browser repository with clips 1 and 2 and a trigger on both whose
cursor sits at index 1. -/
def clampBrowserState : BrowserState :=
  { soundClips := [⟨1, "A", "fA", "audio/mpeg", 0, 1, "blob://fA"⟩,
                   ⟨2, "B", "fB", "audio/mpeg", 0, 1, "blob://fB"⟩],
    triggerWords := [⟨1, "hi", false, true, [1, 2], 1⟩],
    settingsRow := some ⟨1, false, [1, 2], 2000, 0⟩,
    audioFiles := [⟨"fA", [10], "A.mp3"⟩, ⟨"fB", [20], "B.mp3"⟩],
    nextClipId := 3, nextTriggerId := 2 }

/-- The same configuration in the in-memory server repository, plus a
second trigger referencing only clip 1. -/
def clampMemState : MemState :=
  { soundClips := [(1, ⟨1, "A", "fA", "mp3", 0, 1, "/uploads/fA"⟩),
                   (2, ⟨2, "B", "fB", "mp3", 0, 1, "/uploads/fB"⟩)],
    triggerWords := [(1, ⟨1, "hi", false, true, [1, 2], 1⟩),
                     (2, ⟨2, "yo", false, true, [1], 0⟩)],
    settings := ⟨1, false, [], 2000, 0⟩,
    currentSoundClipId := 3, currentTriggerWordId := 3 }

/-- C2: deleting clip 1 removes it from every trigger and deletes
triggers left empty in both backends, and `MemStorage.deleteSoundClip`
clamps the cursor (`Math.min(currentIndex, length - 1)`); but
`BrowserStorage.removeFromTriggerWords` leaves `currentIndex`
untouched, so the browser backend ends with `soundClipIds = [2]` and
`currentIndex = 1`, outside the valid range — after which its own
`getNextSoundClipForTrigger` returns no clip for a trigger whose clip
list is non-empty. -/
theorem deleteSoundClip_clamp_divergence :
    (MemStorage.deleteSoundClip clampMemState 1).triggerWords =
        [(1, ⟨1, "hi", false, true, [2], 0⟩)]
    ∧ (BrowserStorage.deleteSoundClip clampBrowserState 1).triggerWords =
        [⟨1, "hi", false, true, [2], 1⟩]
    ∧ ¬((1 : Nat) < ([2] : List Nat).length)
    ∧ (BrowserStorage.getNextSoundClipForTrigger
        (BrowserStorage.deleteSoundClip clampBrowserState 1) 1).1 = none := by
  refine ⟨by decide, by decide, by decide, by decide⟩

/-- Clearing is idempotent (the key generators survive either way). -/
theorem clearAllData_idem (s : BrowserState) :
    BrowserStorage.clearAllData (BrowserStorage.clearAllData s) =
      BrowserStorage.clearAllData s := rfl

/-- Resolving names through an empty name map drops every name. -/
theorem resolveNames_nil_map (names : List String) :
    BrowserStorage.resolveNames [] names = [] := by
  induction names with
  | nil => rfl
  | cons n ns ih =>
    simp only [BrowserStorage.resolveNames, List.filterMap_cons] at ih ⊢
    exact ih

/-- With an empty name map, no trigger resolves and the trigger-import
loop leaves the state unchanged. -/
theorem importTriggers_nil_map (s : BrowserState) (ts : List ProfileTrigger) :
    BrowserStorage.importTriggers s [] ts = s := by
  induction ts generalizing s with
  | nil => rfl
  | cons t ts ih =>
    simp only [BrowserStorage.importTriggers, List.foldl_cons] at ih ⊢
    rw [resolveNames_nil_map]
    exact ih s

/-- C6: `importProfile` is destructive with clearing as its first step —
it computes the same state as importing into an already-cleared
repository, and importing a document with zero clips leaves zero clips
and zero triggers behind whatever the starting state was. -/
theorem importProfile_destructive_spec :
    (∀ (s : BrowserState) (doc : ProfileDoc) (now duration : Nat),
        BrowserStorage.importProfile s doc now duration =
          BrowserStorage.importProfile (BrowserStorage.clearAllData s) doc now duration)
    ∧ (∀ (s : BrowserState) (doc : ProfileDoc) (now duration : Nat),
        doc.soundClips.getD [] = [] →
        (BrowserStorage.importProfile s doc now duration).soundClips = []
        ∧ (BrowserStorage.importProfile s doc now duration).triggerWords = []) := by
  constructor
  · intro s doc now duration
    simp only [BrowserStorage.importProfile, clearAllData_idem]
  · intro s doc now duration h
    simp only [BrowserStorage.importProfile, h]
    simp only [BrowserStorage.importClips, List.foldl_nil]
    rw [importTriggers_nil_map]
    cases hset : doc.settings with
    | none => exact ⟨rfl, rfl⟩
    | some ps => exact ⟨rfl, rfl⟩

/-- A populated browser repository used to witness the destructive
importProfile behavior. -/
def destructiveStart : BrowserState :=
  { soundClips := [⟨1, "A", "fA", "audio/mpeg", 0, 1, "blob://fA"⟩],
    triggerWords := [⟨1, "hello", false, true, [1], 0⟩],
    settingsRow := some ⟨1, true, [1], 2000, 0⟩,
    audioFiles := [⟨"fA", [10], "A.mp3"⟩],
    nextClipId := 2, nextTriggerId := 2 }

/-- Witness for C6: importing a zero-clip document (which still lists a
trigger) into a populated repository leaves zero clips and zero
triggers. -/
theorem importProfile_destructive_spec_witness :
    (({ version := some "1.0", exportDate := some "d", soundClips := some [],
        triggerWords := some [⟨"hi", ["Ding"], false, true⟩],
        settings := none } : ProfileDoc).soundClips.getD [] = [])
    ∧ (BrowserStorage.importProfile destructiveStart
        { version := some "1.0", exportDate := some "d", soundClips := some [],
          triggerWords := some [⟨"hi", ["Ding"], false, true⟩],
          settings := none } 5 0).soundClips = []
    ∧ (BrowserStorage.importProfile destructiveStart
        { version := some "1.0", exportDate := some "d", soundClips := some [],
          triggerWords := some [⟨"hi", ["Ding"], false, true⟩],
          settings := none } 5 0).triggerWords = [] := by
  have h := importProfile_destructive_spec.2 destructiveStart
    { version := some "1.0", exportDate := some "d", soundClips := some [],
      triggerWords := some [⟨"hi", ["Ding"], false, true⟩],
      settings := none } 5 0 (by decide)
  exact ⟨by decide, h.1, h.2⟩

/-- C9 (amended): `importProfile` performs no validation of the
top-level keys — importing a document in which every required key
(`version`, `soundClips`, `triggerWords`, `settings`) is missing is
accepted and behaves exactly like `clearAllData`: the repository is
wiped and rebuilt from the missing (hence empty) collections. -/
theorem importProfile_missing_keys_accepted :
    ∀ (s : BrowserState) (now duration : Nat),
      BrowserStorage.importProfile s {} now duration =
        BrowserStorage.clearAllData s := by
  intro s now duration
  rfl

/-- A populated browser repository for the C9 counterexample. -/
def validationStart : BrowserState :=
  { soundClips := [⟨1, "A", "fA", "audio/mpeg", 0, 1, "blob://fA"⟩],
    triggerWords := [⟨1, "hello", false, true, [1], 0⟩],
    settingsRow := some ⟨1, true, [1], 2000, 0⟩,
    audioFiles := [⟨"fA", [10], "A.mp3"⟩],
    nextClipId := 2, nextTriggerId := 2 }

/-- C9 counterexample: a document missing all required top-level keys is
not rejected — `importProfile` proceeds, clearing the populated
repository (one clip, one trigger) down to nothing. -/
theorem importProfile_missing_keys_counterexample :
    validationStart.soundClips ≠ []
    ∧ validationStart.triggerWords ≠ []
    ∧ (BrowserStorage.importProfile validationStart {} 5 0).soundClips = []
    ∧ (BrowserStorage.importProfile validationStart {} 5 0).triggerWords = [] := by
  refine ⟨by decide, by decide, by decide, by decide⟩

/-- A browser repository whose settings row has the default response
disabled but a non-empty default clip list. -/
def disabledDefaultState : BrowserState :=
  { soundClips := [], triggerWords := [],
    settingsRow := some ⟨1, false, [7, 8], 2000, 0⟩,
    audioFiles := [], nextClipId := 1, nextTriggerId := 1 }

/-- C8 counterexample: with `defaultResponseEnabled = false` and a
non-empty list, `BrowserStorage.getNextDefaultResponse` still returns a
clip and still advances the cursor — it never consults the flag. -/
theorem getNextDefaultResponse_ignores_enabled :
    (BrowserStorage.getSettings disabledDefaultState).defaultResponseEnabled = false
    ∧ (BrowserStorage.getNextDefaultResponse disabledDefaultState).1 = some 7
    ∧ (BrowserStorage.getNextDefaultResponse disabledDefaultState).2 ≠ disabledDefaultState := by
  refine ⟨by decide, by decide, by decide⟩

/-- C8 (amended): the server `MemStorage.getNextDefaultResponse` returns
`null` without mutating anything whenever the rotation is disabled or
the list is empty, and returns a clip only when enabled with a
non-empty list; the browser variant guards only on the empty list
(`defaultResponseEnabled` is not consulted), returning `null` without
mutation in exactly that case. -/
theorem getNextDefaultResponse_spec :
    (∀ s : MemState,
        s.settings.defaultResponseEnabled = false
          ∨ s.settings.defaultResponseSoundClipIds = [] →
        MemStorage.getNextDefaultResponse s = (none, s))
    ∧ (∀ s : MemState,
        (MemStorage.getNextDefaultResponse s).1.isSome = true →
        s.settings.defaultResponseEnabled = true
          ∧ s.settings.defaultResponseSoundClipIds ≠ [])
    ∧ (∀ s : BrowserState,
        (BrowserStorage.getSettings s).defaultResponseSoundClipIds = [] →
        BrowserStorage.getNextDefaultResponse s = (none, s)) := by
  refine ⟨?_, ?_, ?_⟩
  · intro s h
    rcases h with h | h <;> simp [MemStorage.getNextDefaultResponse, h]
  · intro s h
    by_cases he : s.settings.defaultResponseEnabled
    · by_cases hi : s.settings.defaultResponseSoundClipIds = []
      · rw [show MemStorage.getNextDefaultResponse s = (none, s) from by
          simp [MemStorage.getNextDefaultResponse, hi]] at h
        simp at h
      · exact ⟨he, hi⟩
    · rw [show MemStorage.getNextDefaultResponse s = (none, s) from by
        simp [MemStorage.getNextDefaultResponse,
          Bool.eq_false_iff.mpr he]] at h
      simp at h
  · intro s h
    simp [BrowserStorage.getNextDefaultResponse, h]

/-- Witness for C8 (amended) at concrete states: disabled server
rotation, empty server rotation, a populated enabled server rotation
(whose returned clip certifies the only-if direction), and an empty
browser rotation. -/
theorem getNextDefaultResponse_spec_witness :
    MemStorage.getNextDefaultResponse
        ⟨[], [], ⟨1, false, [7], 2000, 0⟩, 1, 1⟩ =
      (none, ⟨[], [], ⟨1, false, [7], 2000, 0⟩, 1, 1⟩)
    ∧ MemStorage.getNextDefaultResponse
        ⟨[], [], ⟨1, true, [], 2000, 0⟩, 1, 1⟩ =
      (none, ⟨[], [], ⟨1, true, [], 2000, 0⟩, 1, 1⟩)
    ∧ ((⟨[], [], ⟨1, true, [7], 2000, 0⟩, 1, 1⟩ : MemState).settings.defaultResponseEnabled = true
        ∧ (⟨[], [], ⟨1, true, [7], 2000, 0⟩, 1, 1⟩ : MemState).settings.defaultResponseSoundClipIds ≠ [])
    ∧ BrowserStorage.getNextDefaultResponse
        ⟨[], [], some ⟨1, true, [], 2000, 0⟩, [], 1, 1⟩ =
      (none, ⟨[], [], some ⟨1, true, [], 2000, 0⟩, [], 1, 1⟩) := by
  refine ⟨?_, ?_, ?_, ?_⟩
  · exact getNextDefaultResponse_spec.1 _ (Or.inl (by decide))
  · exact getNextDefaultResponse_spec.1 _ (Or.inr (by decide))
  · exact getNextDefaultResponse_spec.2.1 _ (by decide)
  · exact getNextDefaultResponse_spec.2.2 _ (by decide)

/-- The uploaded file of the round-trip scenario: `Ding.mp3` with four
audio bytes. -/
def dingFile : JsFile :=
  { name := "Ding.mp3", type := "audio/mpeg", bytes := [1, 2, 3, 255] }

/-- A repository holding one clip named `"Ding"` (uploaded at clock
1000) and one trigger `"hi"` referencing it. -/
def roundTripStart : BrowserState :=
  let created := BrowserStorage.createSoundClip ⟨[], [], none, [], 1, 1⟩ dingFile 1000 7
  (BrowserStorage.createTriggerWord created.2
    ⟨0, "hi", false, true, [created.1.id], 0⟩).2

/-- The exported profile document of that repository. -/
def roundTripDoc : ProfileDoc :=
  BrowserStorage.exportProfile roundTripStart "2025-01-01T00:00:00.000Z"

/-- The repository after destructively importing the exported document
back (at clock 2000). -/
def roundTripEnd : BrowserState :=
  BrowserStorage.importProfile roundTripStart roundTripDoc 2000 7

/-- C7 counterexample: the round trip does *not* reproduce a clip named
`"Ding"` — the re-created clip is named after the exported storage
filename with its extension stripped (`"1000_Ding"`), because
the importing path feeds the old filename to `createSoundClip`, which derives
the name from it. -/
theorem export_import_round_trip_counterexample :
    roundTripStart.soundClips.map (fun c => c.name) = ["Ding"]
    ∧ roundTripEnd.triggerWords.map (fun t => t.phrase) = ["hi"]
    ∧ roundTripEnd.soundClips.map (fun c => c.name) = ["1000_Ding"]
    ∧ roundTripEnd.soundClips.all (fun c => c.name ≠ "Ding") = true := by
  refine ⟨by decide, by decide, by decide, by decide⟩

/-- C7 (amended): the round trip reproduces the trigger (`phrase =
"hi"`, enabled, case-insensitive) referencing the re-created clip, and
the audio bytes survive the base64 encode/decode byte-identically; the
clip's numeric id changes (2 instead of 1) — but so do its name
(`"1000_Ding"`, the exported filename minus extension, instead of
`"Ding"`), its storage filename and its url. -/
theorem export_import_round_trip_spec :
    roundTripStart.soundClips =
        [⟨1, "Ding", "1000_Ding.mp3", "audio/mpeg", 7, 4, "blob://1000_Ding.mp3"⟩]
    ∧ roundTripStart.triggerWords = [⟨1, "hi", false, true, [1], 0⟩]
    ∧ roundTripEnd.triggerWords = [⟨2, "hi", false, true, [2], 0⟩]
    ∧ roundTripEnd.soundClips =
        [⟨2, "1000_Ding", "2000_1000_Ding.mp3", "audio/mpeg", 7, 4,
          "blob://2000_1000_Ding.mp3"⟩]
    ∧ roundTripEnd.audioFiles =
        [⟨"2000_1000_Ding.mp3", [1, 2, 3, 255], "1000_Ding.mp3"⟩]
    ∧ dingFile.bytes = [1, 2, 3, 255] := by
  refine ⟨by decide, by decide, by decide, by decide, by decide, by decide⟩
